import Mathlib

/-!
Shallow embedding of the core of `src/App.tsx` (toranorium): the directive
compiler `planSceneFromTextMock`, the validation/clamp pass of `applyPrompt`,
the instance layout generator and per-frame motion evaluator of
`FloatingObjects`, and the centerpiece scale computation of `TowerModel`.

Modelling conventions: JS numbers carried by plans are `ℚ` (counts, which are
always integers here, are `Int`); JS strings are `String` / `List Char`;
frame times and the transcendental layout/motion quantities are `ℝ`.
The regex used by `pick` is the literal template `(\d+)\s+` followed by the
keyword string `"k1|k2"`; since `|` has lowest precedence in a regular
expression, the two alternatives are `(\d+)\s+k1` and the bare `k2`, and a
match of the bare `k2` alternative leaves capture group 1 undefined, so
`parseInt(m[1], 10)` evaluates to NaN.  `JsNum` makes that NaN value explicit.
-/

set_option autoImplicit false

namespace Toranorium

/-- Motion policies: `type Motion = "orbit" | "float" | "none"` (App.tsx). -/
inductive Motion where
  | orbit
  | float
  | none
  deriving DecidableEq, Repr

/-- Shape categories: `type Shape = "sphere" | "box" | "torus" | "icosa"`. -/
inductive Shape where
  | sphere
  | box
  | torus
  | icosa
  deriving DecidableEq, Repr

/-- Material kinds: `type MaterialKind = "standard" | "basic" | "toon"`. -/
inductive MaterialKind where
  | standard
  | basic
  | toon
  deriving DecidableEq, Repr

/-- One category of decorative object (`ObjectSpec`, App.tsx).  `count` is the
only required numeric field; the styling fields are optional in the TS type. -/
structure ObjectSpec where
  shape : Shape
  count : Int
  color : Option String
  material : Option MaterialKind
  size : Option ℚ
  metalness : Option ℚ
  roughness : Option ℚ
  motion : Option Motion
  radius : Option ℚ
  deriving DecidableEq, Repr

/-- `ScenePlan` is a record holding the ordered object list. -/
structure ScenePlan where
  objects : List ObjectSpec
  deriving DecidableEq, Repr

/-- ASCII lower-casing of one character, as `toLowerCase()` acts on the ASCII
directives this model covers. -/
def jsToLower (c : Char) : Char :=
  if 65 ≤ c.toNat ∧ c.toNat ≤ 90 then Char.ofNat (c.toNat + 32) else c

/-- `input.toLowerCase()` as a character list. -/
def lowerString (input : String) : List Char :=
  input.toList.map jsToLower

/-- `parseInt(ds, 10)` on the (nonempty, all-digit) capture group. -/
def parseDigits (ds : List Char) : Nat :=
  ds.foldl (fun n c => n * 10 + (c.toNat - 48)) 0

/-- The value produced by `pick`: an actual number, or the NaN produced by
`parseInt(undefined, 10)` when the regex matched via the bare second
alternative (capture group 1 undefined). -/
inductive JsNum where
  | num (n : Nat)
  | nan
  deriving DecidableEq, Repr

/-- Greedy match of the first regex alternative `(\d+)\s+k1` at the head of
`l`, returning the parsed capture group.  Backtracking cannot produce any
other split because digits, whitespace and the keyword head are disjoint
character classes, so the maximal digit run and maximal whitespace run are the
only candidates. -/
def matchNumThen (k1 : List Char) (l : List Char) : Option Nat :=
  let ds := l.takeWhile Char.isDigit
  let r1 := l.dropWhile Char.isDigit
  let ws := r1.takeWhile Char.isWhitespace
  let r2 := r1.dropWhile Char.isWhitespace
  if ds ≠ [] ∧ ws ≠ [] ∧ k1.isPrefixOf r2 then some (parseDigits ds) else Option.none

/-- Leftmost match of the regex `(\d+)\s+k1|k2` over `l`:
at each start position the engine first tries `(\d+)\s+k1` (group 1 defined)
and then the bare alternative `k2` (group 1 undefined, value NaN). -/
def pickScan (k1 k2 : List Char) : List Char → Option JsNum
  | [] => Option.none
  | c :: t =>
    match matchNumThen k1 (c :: t) with
    | some n => some (JsNum.num n)
    | Option.none =>
      if k2.isPrefixOf (c :: t) then some JsNum.nan else pickScan k1 k2 t

/-- `pick(kw)` of App.tsx, with the keyword string `"k1|k2"` already split at
its `|`.  The default argument `def` is `0` at every call site; a match whose
capture group is defined is clamped with `Math.min(·, 200)`, and a match via
the bare alternative yields NaN (`Math.min(NaN, 200)` is NaN). -/
def pick (lower : List Char) (k1 k2 : List Char) : JsNum :=
  match pickScan k1 k2 lower with
  | some (JsNum.num n) => JsNum.num (min n 200)
  | some JsNum.nan => JsNum.nan
  | Option.none => JsNum.num 0

/-- Substring test used by `has`: `lower.includes(kw)`. -/
def containsSub (needle : List Char) : List Char → Bool
  | [] => needle.isPrefixOf []
  | c :: t => needle.isPrefixOf (c :: t) || containsSub needle t

/-- `has(kw) = lower.includes(kw)` (App.tsx). -/
def has (lower : List Char) (kw : List Char) : Bool :=
  containsSub kw lower

/-- JS `x || d` on the result of `pick`: both `0` and NaN are falsy. -/
def jsOr (x : JsNum) (d : Nat) : Nat :=
  match x with
  | JsNum.num n => if n = 0 then d else n
  | JsNum.nan => d

/-- `const spheres = pick("sphere|spheres") || (has("sphere") ? 5 : 0)`. -/
def sphereCount (lower : List Char) : Nat :=
  jsOr (pick lower "sphere".toList "spheres".toList)
    (if has lower "sphere".toList then 5 else 0)

/-- `const boxes = pick("box|boxes") || (has("box") ? 10 : 0)`. -/
def boxCount (lower : List Char) : Nat :=
  jsOr (pick lower "box".toList "boxes".toList)
    (if has lower "box".toList then 10 else 0)

/-- `const torus = pick("torus|tori") || (has("torus") ? 3 : 0)`. -/
def torusCount (lower : List Char) : Nat :=
  jsOr (pick lower "torus".toList "tori".toList)
    (if has lower "torus".toList then 3 else 0)

/-- `const icosa = pick("icosa|icosahedra") || (has("icosa") ? 6 : 0)`. -/
def icosaCount (lower : List Char) : Nat :=
  jsOr (pick lower "icosa".toList "icosahedra".toList)
    (if has lower "icosa".toList then 6 else 0)

/-- The sphere entry pushed when `spheres` is truthy (App.tsx). -/
def sphereEntry (lower : List Char) : ObjectSpec where
  shape := Shape.sphere
  count := (sphereCount lower : Int)
  color := some (if has lower "red".toList then "tomato"
    else if has lower "blue".toList then "skyblue" else "#9cf")
  material := some (if has lower "metal".toList then MaterialKind.standard
    else MaterialKind.standard)
  metalness := some (if has lower "metal".toList then 0.9 else 0.2)
  roughness := some (if has lower "metal".toList then 0.1 else 0.6)
  motion := some (if has lower "orbit".toList then Motion.orbit
    else if has lower "float".toList then Motion.float else Motion.none)
  size := some 0.06
  radius := some (if has lower "close".toList then 0.5 else 1.2)

/-- The box entry pushed when `boxes` is truthy. -/
def boxEntry (lower : List Char) : ObjectSpec where
  shape := Shape.box
  count := (boxCount lower : Int)
  color := some (if has lower "blue".toList then "deepskyblue" else "#ff9")
  material := some (if has lower "toon".toList then MaterialKind.toon
    else MaterialKind.standard)
  metalness := some 0.1
  roughness := some 0.8
  motion := some (if has lower "float".toList then Motion.float else Motion.orbit)
  size := some 0.08
  radius := some 1.0

/-- The torus entry pushed when `torus` is truthy. -/
def torusEntry (lower : List Char) : ObjectSpec where
  shape := Shape.torus
  count := (torusCount lower : Int)
  color := some (if has lower "gold".toList then "#d4af37" else "#faf")
  material := some MaterialKind.standard
  metalness := some (if has lower "gold".toList then 1 else 0.5)
  roughness := some (if has lower "gold".toList then 0.2 else 0.5)
  motion := some Motion.orbit
  size := some 0.12
  radius := some 1.4

/-- The icosahedron entry pushed when `icosa` is truthy. -/
def icosaEntry (lower : List Char) : ObjectSpec where
  shape := Shape.icosa
  count := (icosaCount lower : Int)
  color := some "#aaf"
  material := some MaterialKind.standard
  metalness := some 0.2
  roughness := some 0.7
  motion := some Motion.float
  size := some 0.09
  radius := some 0.9

/-- The default entry substituted when no category was recognized. -/
def defaultSphereSpec : ObjectSpec where
  shape := Shape.sphere
  count := 10
  color := some "#9cf"
  material := some MaterialKind.standard
  metalness := some 0.2
  roughness := some 0.7
  motion := some Motion.orbit
  size := some 0.06
  radius := some 1.2

/-- The four conditional `plan.objects.push(...)` statements, in source
order; a category is pushed exactly when its count variable is truthy. -/
def compiledObjects (lower : List Char) : List ObjectSpec :=
  (if sphereCount lower ≠ 0 then [sphereEntry lower] else [])
    ++ (if boxCount lower ≠ 0 then [boxEntry lower] else [])
    ++ (if torusCount lower ≠ 0 then [torusEntry lower] else [])
    ++ (if icosaCount lower ≠ 0 then [icosaEntry lower] else [])

/-- `planSceneFromTextMock` (App.tsx): lower-case the input, build the
category entries, and substitute the default entry when
`plan.objects.length === 0`. -/
def planSceneFromTextMock (input : String) : ScenePlan :=
  let lower := lowerString input
  let objs := compiledObjects lower
  { objects := if objs = [] then [defaultSphereSpec] else objs }

/-- `Math.min(Math.max(x, lo), hi)`. -/
def clampQ (x lo hi : ℚ) : ℚ := min (max x lo) hi

/-- The per-object body of the validation/safety pass in `applyPrompt`:
each numeric field is defaulted (`?? d`) and clamped into its range.
`count` is a required field of the TS type, so its `?? 1` fallback never
fires and is dropped here. -/
def validateSpec (o : ObjectSpec) : ObjectSpec :=
  { o with
    count := min (max o.count 1) 200
    size := some (clampQ (o.size.getD 0.06) 0.02 0.4)
    radius := some (clampQ (o.radius.getD 1.2) 0.2 5)
    metalness := some (clampQ (o.metalness.getD 0.2) 0 1)
    roughness := some (clampQ (o.roughness.getD 0.7) 0 1) }

/-- The validation/clamp pass applied to a whole plan (`applyPrompt`). -/
def validatePlan (p : ScenePlan) : ScenePlan :=
  { objects := p.objects.map validateSpec }

/-- Boolean check that one optional numeric field is present and in range. -/
def numFieldInRange (f : Option ℚ) (lo hi : ℚ) : Bool :=
  match f with
  | some x => decide (lo ≤ x ∧ x ≤ hi)
  | Option.none => false

/-- Boolean form of the §3 clamp invariant for one `ObjectSpec`. -/
def specInRangeB (o : ObjectSpec) : Bool :=
  decide (1 ≤ o.count ∧ o.count ≤ 200)
    && numFieldInRange o.size 0.02 0.4
    && numFieldInRange o.radius 0.2 5
    && numFieldInRange o.metalness 0 1
    && numFieldInRange o.roughness 0 1

/-- The `scale` computation of `TowerModel`: `1` when the model is not
available, otherwise `fitHeight / (size.y || 1)` — the `|| 1` replaces a
falsy (zero) measured height by `1` before dividing. -/
def towerModelScale (measuredHeight : Option ℚ) (fitHeight : ℚ) : ℚ :=
  match measuredHeight with
  | Option.none => 1
  | some hy => fitHeight / (if hy = 0 then 1 else hy)

/-- Per-instance static layout derived inside `FloatingObjects`' `useMemo`:
angle offset, base height, speed factor and effective radius. -/
structure InstanceLayout where
  ang : ℝ
  y : ℝ
  speed : ℝ
  r : ℝ

/-- The `instances` array of `FloatingObjects`: a pure function of
`(spec.count, spec.radius, seed)`.  The radius is defaulted
(`spec.radius ?? 1.2`) and floored at `0.2` before the per-instance jitter. -/
noncomputable def generateLayout (spec : ObjectSpec) (seed : Int) : List InstanceLayout :=
  let r : ℝ := max ((spec.radius.getD 1.2 : ℚ) : ℝ) 0.2
  (List.range spec.count.toNat).map fun (i : ℕ) =>
    { ang := (((i : ℝ) + (seed : ℝ)) / (spec.count : ℝ)) * Real.pi * 2
      y := (Real.sin ((i : ℝ) * 12.9898 + (seed : ℝ)) * 0.5 + 0.5) * 0.6 + 0.2
      speed := 0.4 + ((i % 7 : ℕ) : ℝ) * 0.03
      r := r * (0.9 + ((i % 5 : ℕ) : ℝ) * 0.02) }

/-- Transient per-instance frame state: position and the two accumulated
rotation components the `useFrame` body touches. -/
structure FrameState where
  pos : ℝ × ℝ × ℝ
  rotX : ℝ
  rotY : ℝ

/-- One `useFrame` update for one instance (App.tsx): `tNow` is the
`performance.now()` reading for the frame and `dt` the frame delta.
Orbit overwrites the position from absolute time and accumulates yaw by
`dt * 0.5`; float moves only the y coordinate and accumulates `dt * 0.3` /
`dt * 0.2`; any other motion leaves the state untouched. -/
noncomputable def stepInstance (motion : Option Motion) (layout : InstanceLayout)
    (i : Nat) (tNow dt : ℝ) (st : FrameState) : FrameState :=
  match motion with
  | some Motion.orbit =>
    let a := layout.ang + layout.speed * tNow * 0.00015
    { pos := (Real.cos a * layout.r, layout.y, Real.sin a * layout.r)
      rotX := st.rotX
      rotY := st.rotY + dt * 0.5 }
  | some Motion.float =>
    { pos := (st.pos.1, layout.y + Real.sin (tNow * 0.001 + (i : ℝ)) * 0.1, st.pos.2.2)
      rotX := st.rotX + dt * 0.3
      rotY := st.rotY + dt * 0.2 }
  | _ => st

/-- A rendered history: `stepInstance` applied over a list of
`(performance.now(), delta)` frame readings. -/
noncomputable def runSteps (motion : Option Motion) (layout : InstanceLayout)
    (i : Nat) : List (ℝ × ℝ) → FrameState → FrameState
  | [], st => st
  | td :: rest, st => runSteps motion layout i rest (stepInstance motion layout i td.1 td.2 st)

/-- Spec with count 1 and a sub-floor radius 0.1, exercising the generator's
defensive `max(radius, 0.2)` floor. -/
def lowRadiusSpec : ObjectSpec where
  shape := Shape.sphere
  count := 1
  color := Option.none
  material := Option.none
  size := Option.none
  metalness := Option.none
  roughness := Option.none
  motion := Option.none
  radius := some (1/10)

/-- The §8 scenario spec `{count: 1, radius: 1.2}`. -/
def scenarioSpec : ObjectSpec where
  shape := Shape.sphere
  count := 1
  color := Option.none
  material := Option.none
  size := Option.none
  metalness := Option.none
  roughness := Option.none
  motion := Option.none
  radius := some 1.2

/-- A two-instance spec with an in-range radius, used to instantiate the
layout formulas. -/
def twoSpec : ObjectSpec where
  shape := Shape.sphere
  count := 2
  color := Option.none
  material := Option.none
  size := Option.none
  metalness := Option.none
  roughness := Option.none
  motion := Option.none
  radius := some 1.2

/-! ### Supporting lemmas about the compiler -/

theorem pick_num_le {lower k1 k2 : List Char} {n : Nat}
    (h : pick lower k1 k2 = JsNum.num n) : n ≤ 200 := by
  unfold pick at h
  cases hscan : pickScan k1 k2 lower with
  | none =>
    rw [hscan] at h
    simp only [JsNum.num.injEq] at h
    omega
  | some j =>
    cases j with
    | num m =>
      rw [hscan] at h
      simp only [JsNum.num.injEq] at h
      omega
    | nan =>
      rw [hscan] at h
      cases h

theorem jsOr_pick_le {lower k1 k2 : List Char} {d : Nat} (hd : d ≤ 200) :
    jsOr (pick lower k1 k2) d ≤ 200 := by
  cases hp : pick lower k1 k2 with
  | nan => simpa [jsOr] using hd
  | num n =>
    by_cases hn : n = 0
    · simpa [jsOr, hn] using hd
    · simpa [jsOr, hn] using pick_num_le hp

theorem sphereCount_le (lower : List Char) : sphereCount lower ≤ 200 := by
  unfold sphereCount
  exact jsOr_pick_le (by split <;> omega)

theorem boxCount_le (lower : List Char) : boxCount lower ≤ 200 := by
  unfold boxCount
  exact jsOr_pick_le (by split <;> omega)

theorem torusCount_le (lower : List Char) : torusCount lower ≤ 200 := by
  unfold torusCount
  exact jsOr_pick_le (by split <;> omega)

theorem icosaCount_le (lower : List Char) : icosaCount lower ≤ 200 := by
  unfold icosaCount
  exact jsOr_pick_le (by split <;> omega)

theorem containsSub_of_isPrefixOf {k l : List Char} (h : k.isPrefixOf l = true) :
    containsSub k l = true := by
  cases l with
  | nil => simpa [containsSub] using h
  | cons c t => simp [containsSub, h]

theorem containsSub_cons {k : List Char} {c : Char} {t : List Char}
    (h : containsSub k t = true) : containsSub k (c :: t) = true := by
  simp [containsSub, h]

theorem containsSub_of_dropWhile {p : Char → Bool} {k : List Char} :
    ∀ {l : List Char}, containsSub k (l.dropWhile p) = true → containsSub k l = true := by
  intro l
  induction l with
  | nil => exact fun h => h
  | cons c t ih =>
    intro h
    by_cases hc : p c = true
    · rw [List.dropWhile_cons, if_pos hc] at h
      exact containsSub_cons (ih h)
    · rwa [List.dropWhile_cons, if_neg hc] at h

theorem matchNumThen_containsSub {k l : List Char} {n : Nat}
    (h : matchNumThen k l = some n) : containsSub k l = true := by
  simp only [matchNumThen] at h
  split at h
  · rename_i hcond
    exact containsSub_of_dropWhile
      (containsSub_of_dropWhile (containsSub_of_isPrefixOf hcond.2.2))
  · cases h

theorem pickScan_num_containsSub {k1 k2 : List Char} :
    ∀ {l : List Char} {n : Nat}, pickScan k1 k2 l = some (JsNum.num n) →
      containsSub k1 l = true := by
  intro l
  induction l with
  | nil => intro n h; simp [pickScan] at h
  | cons c t ih =>
    intro n h
    cases hm : matchNumThen k1 (c :: t) with
    | some m => exact matchNumThen_containsSub hm
    | none =>
      simp only [pickScan, hm] at h
      split at h
      · exact absurd h (by simp)
      · exact containsSub_cons (ih h)

theorem jsOr_pick_zero {lower k1 k2 : List Char} (h : has lower k1 = false) :
    jsOr (pick lower k1 k2) 0 = 0 := by
  unfold jsOr
  cases hp : pick lower k1 k2 with
  | nan => rfl
  | num n =>
    have hn : n = 0 := by
      unfold pick at hp
      cases hscan : pickScan k1 k2 lower with
      | none =>
        rw [hscan] at hp
        simpa using hp.symm
      | some j =>
        cases j with
        | num m =>
          have hsub := pickScan_num_containsSub hscan
          unfold has at h
          rw [h] at hsub
          cases hsub
        | nan =>
          rw [hscan] at hp
          cases hp
    simp [hn]

theorem boxCount_eq_zero {lower : List Char} (h : has lower ("box".toList) = false) :
    boxCount lower = 0 := by
  unfold boxCount
  have h0 : (if has lower ("box".toList) then 10 else 0) = 0 := by rw [h]; simp
  rw [h0]
  exact jsOr_pick_zero h

theorem mem_ite_singleton {c : Prop} [Decidable c] {x o : ObjectSpec}
    (h : o ∈ (if c then [x] else [])) : o = x ∧ c := by
  by_cases hc : c
  · rw [if_pos hc] at h
    exact ⟨List.mem_singleton.mp h, hc⟩
  · rw [if_neg hc] at h
    cases h

theorem mem_compiledObjects {lower : List Char} {o : ObjectSpec}
    (h : o ∈ compiledObjects lower) :
    o = sphereEntry lower ∧ sphereCount lower ≠ 0 ∨
      (o = boxEntry lower ∧ boxCount lower ≠ 0 ∨
        (o = torusEntry lower ∧ torusCount lower ≠ 0 ∨
          (o = icosaEntry lower ∧ icosaCount lower ≠ 0))) := by
  unfold compiledObjects at h
  simp only [List.mem_append] at h
  rcases h with ((h | h) | h) | h
  · exact Or.inl (mem_ite_singleton h)
  · exact Or.inr (Or.inl (mem_ite_singleton h))
  · exact Or.inr (Or.inr (Or.inl (mem_ite_singleton h)))
  · exact Or.inr (Or.inr (Or.inr (mem_ite_singleton h)))

theorem plan_objects (input : String) :
    (planSceneFromTextMock input).objects =
      if compiledObjects (lowerString input) = [] then [defaultSphereSpec]
      else compiledObjects (lowerString input) := rfl

theorem mem_plan {input : String} {o : ObjectSpec}
    (h : o ∈ (planSceneFromTextMock input).objects) :
    o = defaultSphereSpec ∨ o ∈ compiledObjects (lowerString input) := by
  rw [plan_objects] at h
  by_cases he : compiledObjects (lowerString input) = []
  · rw [if_pos he] at h
    exact Or.inl (List.mem_singleton.mp h)
  · rw [if_neg he] at h
    exact Or.inr h

/-! ### Supporting lemmas about clamping and validation -/

theorem clampQ_le {lo hi : ℚ} (x : ℚ) (h : lo ≤ hi) :
    lo ≤ clampQ x lo hi ∧ clampQ x lo hi ≤ hi :=
  ⟨le_min (le_max_right x lo) h, min_le_right _ _⟩

theorem clampQ_eq_self {x lo hi : ℚ} (h1 : lo ≤ x) (h2 : x ≤ hi) :
    clampQ x lo hi = x := by
  unfold clampQ
  rw [max_eq_left h1, min_eq_left h2]

theorem validateSpec_eq_self {o : ObjectSpec}
    (h1 : 1 ≤ o.count) (h2 : o.count ≤ 200)
    (hs : ∃ x, o.size = some x ∧ (0.02 : ℚ) ≤ x ∧ x ≤ 0.4)
    (hr : ∃ x, o.radius = some x ∧ (0.2 : ℚ) ≤ x ∧ x ≤ 5)
    (hm : ∃ x, o.metalness = some x ∧ (0 : ℚ) ≤ x ∧ x ≤ 1)
    (ht : ∃ x, o.roughness = some x ∧ (0 : ℚ) ≤ x ∧ x ≤ 1) :
    validateSpec o = o := by
  obtain ⟨s, hs0, hs1, hs2⟩ := hs
  obtain ⟨r, hr0, hr1, hr2⟩ := hr
  obtain ⟨m, hm0, hm1, hm2⟩ := hm
  obtain ⟨t, ht0, ht1, ht2⟩ := ht
  unfold validateSpec
  rw [hs0, hr0, hm0, ht0]
  simp only [Option.getD_some]
  rw [clampQ_eq_self hs1 hs2, clampQ_eq_self hr1 hr2, clampQ_eq_self hm1 hm2,
    clampQ_eq_self ht1 ht2]
  have hc : min (max o.count 1) 200 = o.count := by omega
  rw [hc, ← hs0, ← hr0, ← hm0, ← ht0]

theorem specInRangeB_eq_true {o : ObjectSpec}
    (h1 : 1 ≤ o.count) (h2 : o.count ≤ 200)
    (hs : ∃ x, o.size = some x ∧ (0.02 : ℚ) ≤ x ∧ x ≤ 0.4)
    (hr : ∃ x, o.radius = some x ∧ (0.2 : ℚ) ≤ x ∧ x ≤ 5)
    (hm : ∃ x, o.metalness = some x ∧ (0 : ℚ) ≤ x ∧ x ≤ 1)
    (ht : ∃ x, o.roughness = some x ∧ (0 : ℚ) ≤ x ∧ x ≤ 1) :
    specInRangeB o = true := by
  obtain ⟨s, hs0, hs1, hs2⟩ := hs
  obtain ⟨r, hr0, hr1, hr2⟩ := hr
  obtain ⟨m, hm0, hm1, hm2⟩ := hm
  obtain ⟨t, ht0, ht1, ht2⟩ := ht
  unfold specInRangeB numFieldInRange
  rw [hs0, hr0, hm0, ht0]
  simp [h1, h2, hs1, hs2, hr1, hr2, hm1, hm2, ht1, ht2]

theorem sphereEntry_props {lower : List Char} (h : sphereCount lower ≠ 0) :
    validateSpec (sphereEntry lower) = sphereEntry lower ∧
      specInRangeB (sphereEntry lower) = true := by
  have h1 : 1 ≤ (sphereEntry lower).count := by
    have := Nat.pos_of_ne_zero h
    show (1 : Int) ≤ (sphereCount lower : Int)
    exact_mod_cast this
  have h2 : (sphereEntry lower).count ≤ 200 := by
    show (sphereCount lower : Int) ≤ 200
    exact_mod_cast sphereCount_le lower
  have hs : ∃ x, (sphereEntry lower).size = some x ∧ (0.02 : ℚ) ≤ x ∧ x ≤ 0.4 :=
    ⟨0.06, rfl, by norm_num, by norm_num⟩
  have hr : ∃ x, (sphereEntry lower).radius = some x ∧ (0.2 : ℚ) ≤ x ∧ x ≤ 5 :=
    ⟨_, rfl, by split <;> norm_num, by split <;> norm_num⟩
  have hm : ∃ x, (sphereEntry lower).metalness = some x ∧ (0 : ℚ) ≤ x ∧ x ≤ 1 :=
    ⟨_, rfl, by split <;> norm_num, by split <;> norm_num⟩
  have ht : ∃ x, (sphereEntry lower).roughness = some x ∧ (0 : ℚ) ≤ x ∧ x ≤ 1 :=
    ⟨_, rfl, by split <;> norm_num, by split <;> norm_num⟩
  exact ⟨validateSpec_eq_self h1 h2 hs hr hm ht, specInRangeB_eq_true h1 h2 hs hr hm ht⟩

theorem boxEntry_props {lower : List Char} (h : boxCount lower ≠ 0) :
    validateSpec (boxEntry lower) = boxEntry lower ∧
      specInRangeB (boxEntry lower) = true := by
  have h1 : 1 ≤ (boxEntry lower).count := by
    have := Nat.pos_of_ne_zero h
    show (1 : Int) ≤ (boxCount lower : Int)
    exact_mod_cast this
  have h2 : (boxEntry lower).count ≤ 200 := by
    show (boxCount lower : Int) ≤ 200
    exact_mod_cast boxCount_le lower
  have hs : ∃ x, (boxEntry lower).size = some x ∧ (0.02 : ℚ) ≤ x ∧ x ≤ 0.4 :=
    ⟨0.08, rfl, by norm_num, by norm_num⟩
  have hr : ∃ x, (boxEntry lower).radius = some x ∧ (0.2 : ℚ) ≤ x ∧ x ≤ 5 :=
    ⟨1.0, rfl, by norm_num, by norm_num⟩
  have hm : ∃ x, (boxEntry lower).metalness = some x ∧ (0 : ℚ) ≤ x ∧ x ≤ 1 :=
    ⟨0.1, rfl, by norm_num, by norm_num⟩
  have ht : ∃ x, (boxEntry lower).roughness = some x ∧ (0 : ℚ) ≤ x ∧ x ≤ 1 :=
    ⟨0.8, rfl, by norm_num, by norm_num⟩
  exact ⟨validateSpec_eq_self h1 h2 hs hr hm ht, specInRangeB_eq_true h1 h2 hs hr hm ht⟩

theorem torusEntry_props {lower : List Char} (h : torusCount lower ≠ 0) :
    validateSpec (torusEntry lower) = torusEntry lower ∧
      specInRangeB (torusEntry lower) = true := by
  have h1 : 1 ≤ (torusEntry lower).count := by
    have := Nat.pos_of_ne_zero h
    show (1 : Int) ≤ (torusCount lower : Int)
    exact_mod_cast this
  have h2 : (torusEntry lower).count ≤ 200 := by
    show (torusCount lower : Int) ≤ 200
    exact_mod_cast torusCount_le lower
  have hs : ∃ x, (torusEntry lower).size = some x ∧ (0.02 : ℚ) ≤ x ∧ x ≤ 0.4 :=
    ⟨0.12, rfl, by norm_num, by norm_num⟩
  have hr : ∃ x, (torusEntry lower).radius = some x ∧ (0.2 : ℚ) ≤ x ∧ x ≤ 5 :=
    ⟨1.4, rfl, by norm_num, by norm_num⟩
  have hm : ∃ x, (torusEntry lower).metalness = some x ∧ (0 : ℚ) ≤ x ∧ x ≤ 1 :=
    ⟨_, rfl, by split <;> norm_num, by split <;> norm_num⟩
  have ht : ∃ x, (torusEntry lower).roughness = some x ∧ (0 : ℚ) ≤ x ∧ x ≤ 1 :=
    ⟨_, rfl, by split <;> norm_num, by split <;> norm_num⟩
  exact ⟨validateSpec_eq_self h1 h2 hs hr hm ht, specInRangeB_eq_true h1 h2 hs hr hm ht⟩

theorem icosaEntry_props {lower : List Char} (h : icosaCount lower ≠ 0) :
    validateSpec (icosaEntry lower) = icosaEntry lower ∧
      specInRangeB (icosaEntry lower) = true := by
  have h1 : 1 ≤ (icosaEntry lower).count := by
    have := Nat.pos_of_ne_zero h
    show (1 : Int) ≤ (icosaCount lower : Int)
    exact_mod_cast this
  have h2 : (icosaEntry lower).count ≤ 200 := by
    show (icosaCount lower : Int) ≤ 200
    exact_mod_cast icosaCount_le lower
  have hs : ∃ x, (icosaEntry lower).size = some x ∧ (0.02 : ℚ) ≤ x ∧ x ≤ 0.4 :=
    ⟨0.09, rfl, by norm_num, by norm_num⟩
  have hr : ∃ x, (icosaEntry lower).radius = some x ∧ (0.2 : ℚ) ≤ x ∧ x ≤ 5 :=
    ⟨0.9, rfl, by norm_num, by norm_num⟩
  have hm : ∃ x, (icosaEntry lower).metalness = some x ∧ (0 : ℚ) ≤ x ∧ x ≤ 1 :=
    ⟨0.2, rfl, by norm_num, by norm_num⟩
  have ht : ∃ x, (icosaEntry lower).roughness = some x ∧ (0 : ℚ) ≤ x ∧ x ≤ 1 :=
    ⟨0.7, rfl, by norm_num, by norm_num⟩
  exact ⟨validateSpec_eq_self h1 h2 hs hr hm ht, specInRangeB_eq_true h1 h2 hs hr hm ht⟩

theorem defaultSphereSpec_props :
    validateSpec defaultSphereSpec = defaultSphereSpec ∧
      specInRangeB defaultSphereSpec = true := by
  have h1 : 1 ≤ defaultSphereSpec.count := by norm_num [defaultSphereSpec]
  have h2 : defaultSphereSpec.count ≤ 200 := by norm_num [defaultSphereSpec]
  have hs : ∃ x, defaultSphereSpec.size = some x ∧ (0.02 : ℚ) ≤ x ∧ x ≤ 0.4 :=
    ⟨0.06, rfl, by norm_num, by norm_num⟩
  have hr : ∃ x, defaultSphereSpec.radius = some x ∧ (0.2 : ℚ) ≤ x ∧ x ≤ 5 :=
    ⟨1.2, rfl, by norm_num, by norm_num⟩
  have hm : ∃ x, defaultSphereSpec.metalness = some x ∧ (0 : ℚ) ≤ x ∧ x ≤ 1 :=
    ⟨0.2, rfl, by norm_num, by norm_num⟩
  have ht : ∃ x, defaultSphereSpec.roughness = some x ∧ (0 : ℚ) ≤ x ∧ x ≤ 1 :=
    ⟨0.7, rfl, by norm_num, by norm_num⟩
  exact ⟨validateSpec_eq_self h1 h2 hs hr hm ht, specInRangeB_eq_true h1 h2 hs hr hm ht⟩

theorem plan_entry_props {input : String} {o : ObjectSpec}
    (h : o ∈ (planSceneFromTextMock input).objects) :
    validateSpec o = o ∧ specInRangeB o = true := by
  rcases mem_plan h with rfl | hco
  · exact defaultSphereSpec_props
  · rcases mem_compiledObjects hco with ⟨rfl, hc⟩ | ⟨rfl, hc⟩ | ⟨rfl, hc⟩ | ⟨rfl, hc⟩
    · exact sphereEntry_props hc
    · exact boxEntry_props hc
    · exact torusEntry_props hc
    · exact icosaEntry_props hc

theorem map_self_of_mem {α : Type} (f : α → α) :
    ∀ l : List α, (∀ x ∈ l, f x = x) → l.map f = l := by
  intro l
  induction l with
  | nil => intro _; rfl
  | cons x t ih =>
    intro h
    rw [List.map_cons, h x (List.mem_cons_self x t),
      ih fun y hy => h y (List.mem_cons_of_mem x hy)]

theorem scenePlan_eq {p q : ScenePlan} (h : p.objects = q.objects) : p = q := by
  cases p
  cases q
  exact congrArg ScenePlan.mk h

theorem validate_plan_id (input : String) :
    validatePlan (planSceneFromTextMock input) = planSceneFromTextMock input := by
  apply scenePlan_eq
  show (planSceneFromTextMock input).objects.map validateSpec = _
  exact map_self_of_mem _ _ fun o ho => (plan_entry_props ho).1

theorem plan_all_inRange (input : String) :
    (planSceneFromTextMock input).objects.all specInRangeB = true := by
  rw [List.all_eq_true]
  intro o ho
  exact (plan_entry_props ho).2

/-! ### Supporting lemmas about the motion evaluator -/

theorem runSteps_append (motion : Option Motion) (layout : InstanceLayout) (i : Nat)
    (a b : List (ℝ × ℝ)) (st : FrameState) :
    runSteps motion layout i (a ++ b) st =
      runSteps motion layout i b (runSteps motion layout i a st) := by
  induction a generalizing st with
  | nil => rfl
  | cons td rest ih =>
    rw [List.cons_append]
    show runSteps motion layout i (rest ++ b) _ = _
    rw [ih]
    rfl

theorem stepInstance_orbit_pos (layout : InstanceLayout) (i : Nat) (tNow dt : ℝ)
    (st : FrameState) :
    (stepInstance (some Motion.orbit) layout i tNow dt st).pos =
      (Real.cos (layout.ang + layout.speed * tNow * 0.00015) * layout.r, layout.y,
        Real.sin (layout.ang + layout.speed * tNow * 0.00015) * layout.r) := rfl

/-! ### Claim theorems -/

/-- C1 (counterexample): the directive
"20 red spheres orbit, 5 gold torus, add 10 blue boxes floating" does not
produce a sphere entry with count 20: the adjective between the number and
the keyword defeats the numbered regex alternative, the bare plural matches
with an undefined capture group (NaN), and the sphere count falls back to
the implicit default 5. -/
theorem scenario_directive_counterexample :
    ¬ ∃ o ∈ (planSceneFromTextMock
        "20 red spheres orbit, 5 gold torus, add 10 blue boxes floating").objects,
      o.shape = Shape.sphere ∧ o.count = 20 := by
  decide

/-- C1 (amended): the directive compiles to the 3-entry plan
sphere(count 5, "tomato", orbit), box(count 10, "deepskyblue", float),
torus(count 3, "#d4af37", metalness 1, orbit) — all three counts are the
implicit category defaults because in each clause an adjective separates the
number from the category keyword. -/
theorem scenario_directive_amended :
    planSceneFromTextMock "20 red spheres orbit, 5 gold torus, add 10 blue boxes floating" =
      { objects := [
        { shape := Shape.sphere, count := 5, color := some "tomato",
          material := some MaterialKind.standard, size := some 0.06,
          metalness := some 0.2, roughness := some 0.6,
          motion := some Motion.orbit, radius := some 1.2 },
        { shape := Shape.box, count := 10, color := some "deepskyblue",
          material := some MaterialKind.standard, size := some 0.08,
          metalness := some 0.1, roughness := some 0.8,
          motion := some Motion.float, radius := some 1.0 },
        { shape := Shape.torus, count := 3, color := some "#d4af37",
          material := some MaterialKind.standard, size := some 0.12,
          metalness := some 1, roughness := some 0.2,
          motion := some Motion.orbit, radius := some 1.4 }] } := rfl

/-- C2 (counterexample): with a present model of measured height 0 the solver
returns the desired height (here 2), and with measured height -1 it returns
the negated desired height — not 1.0 as claimed. -/
theorem scaleSolver_counterexample :
    towerModelScale (some 0) 2 = 2 ∧ towerModelScale (some (-1)) 2 = -2 ∧
      (2 : ℚ) ≠ 1 := by
  refine ⟨?_, ?_, by norm_num⟩
  · simp [towerModelScale]
  · norm_num [towerModelScale]

/-- C2 (amended): the solver returns 1.0 exactly when the model is absent;
with a measured model it returns desiredHeight / measuredHeight whenever the
measured height is nonzero (negative heights included), and
desiredHeight / 1 = desiredHeight when the measured height is zero. -/
theorem scaleSolver_amended (m h : ℚ) :
    towerModelScale Option.none h = 1 ∧
    towerModelScale (some 0) h = h ∧
    (m ≠ 0 → towerModelScale (some m) h = h / m) := by
  refine ⟨rfl, ?_, ?_⟩
  · simp [towerModelScale]
  · intro hm
    simp [towerModelScale, hm]

/-- C2 (witness): the amended scale-solver theorem evaluated at measured
height 2 and desired height 3. -/
theorem scaleSolver_amended_witness :
    towerModelScale Option.none 3 = 1 ∧ towerModelScale (some 0) 3 = 3 ∧
      towerModelScale (some 2) 3 = 3 / 2 :=
  ⟨(scaleSolver_amended 2 3).1, (scaleSolver_amended 2 3).2.1,
    (scaleSolver_amended 2 3).2.2 (by norm_num)⟩

/-- C3: every ObjectSpec produced by the validation/clamp pass satisfies
1 ≤ count ≤ 200, 0.02 ≤ size ≤ 0.4, 0.2 ≤ radius ≤ 5, and metalness and
roughness in [0, 1], with missing numeric fields first replaced by their
defaults (so every numeric field is present afterwards). -/
theorem validate_clamp_invariant (p : ScenePlan) :
    (validatePlan p).objects.all specInRangeB = true := by
  rw [List.all_eq_true]
  intro o ho
  obtain ⟨o0, -, rfl⟩ := List.mem_map.mp ho
  have hc : 1 ≤ (validateSpec o0).count ∧ (validateSpec o0).count ≤ 200 := by
    show 1 ≤ min (max o0.count 1) 200 ∧ min (max o0.count 1) 200 ≤ 200
    omega
  have hs := clampQ_le (o0.size.getD 0.06) (show (0.02 : ℚ) ≤ 0.4 by norm_num)
  have hr := clampQ_le (o0.radius.getD 1.2) (show (0.2 : ℚ) ≤ 5 by norm_num)
  have hm := clampQ_le (o0.metalness.getD 0.2) (show (0 : ℚ) ≤ 1 by norm_num)
  have ht := clampQ_le (o0.roughness.getD 0.7) (show (0 : ℚ) ≤ 1 by norm_num)
  exact specInRangeB_eq_true hc.1 hc.2 ⟨_, rfl, hs.1, hs.2⟩ ⟨_, rfl, hr.1, hr.2⟩
    ⟨_, rfl, hm.1, hm.2⟩ ⟨_, rfl, ht.1, ht.2⟩

/-- C4 (counterexample): for a spec with radius 0.1 the generator's defensive
floor `max(radius, 0.2)` makes the first instance's effectiveRadius
0.2 * 0.9 = 0.18, while the claimed formula spec.radius * (0.9 + 0 * 0.02)
gives 0.09. -/
theorem generateLayout_formulas_counterexample :
    (generateLayout lowRadiusSpec 0).map InstanceLayout.r =
      [max (((1 / 10 : ℚ)) : ℝ) 0.2 * (0.9 + ((0 % 5 : ℕ) : ℝ) * 0.02)] ∧
    max (((1 / 10 : ℚ)) : ℝ) 0.2 * (0.9 + ((0 % 5 : ℕ) : ℝ) * 0.02) = 0.18 ∧
    (0.18 : ℝ) ≠ (1 / 10 : ℝ) * (0.9 + ((0 % 5 : ℕ) : ℝ) * 0.02) := by
  refine ⟨rfl, ?_, ?_⟩
  · have hmax : max (((1 / 10 : ℚ)) : ℝ) (0.2 : ℝ) = (0.2 : ℝ) := by
      rw [max_eq_right]
      push_cast
      norm_num
    rw [hmax]
    norm_num
  · norm_num

/-- C4 (amended): for a spec whose radius is present and at least the 0.2
floor, with count at least 1, generateLayout returns count instances and the
instance at index i has angleOffset ((i + seed) / count) * 2π, speedFactor
0.4 + (i mod 7) * 0.03 and effectiveRadius radius * (0.9 + (i mod 5) * 0.02);
re-running it on the same arguments gives the identical sequence.  (For a
radius below 0.2, or an absent radius, the generator substitutes
max(radius ?? 1.2, 0.2) in place of the claimed spec.radius factor.) -/
theorem generateLayout_formulas_amended (spec : ObjectSpec) (seed : Int) (ρ : ℚ)
    (i : ℕ) (hc : 1 ≤ spec.count) (hρ : spec.radius = some ρ)
    (hρ2 : (0.2 : ℚ) ≤ ρ) (hi : i < spec.count.toNat) :
    ((generateLayout spec seed).length : Int) = spec.count ∧
    generateLayout spec seed = generateLayout spec seed ∧
    ((generateLayout spec seed).map InstanceLayout.ang)[i]? =
      some ((((i : ℝ) + (seed : ℝ)) / (spec.count : ℝ)) * (2 * Real.pi)) ∧
    ((generateLayout spec seed).map InstanceLayout.speed)[i]? =
      some (0.4 + ((i % 7 : ℕ) : ℝ) * 0.03) ∧
    ((generateLayout spec seed).map InstanceLayout.r)[i]? =
      some (((ρ : ℚ) : ℝ) * (0.9 + ((i % 5 : ℕ) : ℝ) * 0.02)) := by
  have hcast : ((0.2 : ℚ) : ℝ) = (0.2 : ℝ) := by norm_num
  have hle : (0.2 : ℝ) ≤ ((ρ : ℚ) : ℝ) := by
    rw [← hcast]
    exact_mod_cast hρ2
  refine ⟨?_, rfl, ?_, ?_, ?_⟩
  · have hlen : (generateLayout spec seed).length = spec.count.toNat := by
      simp [generateLayout]
    rw [hlen]
    omega
  · simp only [generateLayout, List.map_map, List.getElem?_map,
      List.getElem?_range hi, Option.map_some', Function.comp_apply,
      Option.some.injEq]
    ring
  · simp only [generateLayout, List.map_map, List.getElem?_map,
      List.getElem?_range hi, Option.map_some', Function.comp_apply]
  · simp only [generateLayout, List.map_map, List.getElem?_map,
      List.getElem?_range hi, Option.map_some', Function.comp_apply,
      Option.some.injEq]
    rw [hρ]
    simp only [Option.getD_some]
    rw [max_eq_left hle]

/-- C4 (witness): the amended layout theorem evaluated at the two-instance
spec, seed 3, index 0. -/
theorem generateLayout_formulas_amended_witness :
    ((generateLayout twoSpec 3).length : Int) = twoSpec.count ∧
    generateLayout twoSpec 3 = generateLayout twoSpec 3 ∧
    ((generateLayout twoSpec 3).map InstanceLayout.ang)[(0 : ℕ)]? =
      some ((((0 : ℕ) : ℝ) + ((3 : Int) : ℝ)) / (twoSpec.count : ℝ) * (2 * Real.pi)) ∧
    ((generateLayout twoSpec 3).map InstanceLayout.speed)[(0 : ℕ)]? =
      some (0.4 + ((0 % 7 : ℕ) : ℝ) * 0.03) ∧
    ((generateLayout twoSpec 3).map InstanceLayout.r)[(0 : ℕ)]? =
      some (((1.2 : ℚ) : ℝ) * (0.9 + ((0 % 5 : ℕ) : ℝ) * 0.02)) :=
  generateLayout_formulas_amended twoSpec 3 1.2 0 (by decide) rfl (by norm_num)
    (by decide)

/-- C5 (counterexample): generateLayout on {count 1, radius 1.2} with seed 0
produces effectiveRadius 1.2 * 0.9 = 1.08, not the claimed 1.2. -/
theorem generateLayout_single_counterexample :
    (generateLayout scenarioSpec 0).map InstanceLayout.r =
      [max (((1.2 : ℚ)) : ℝ) 0.2 * (0.9 + ((0 % 5 : ℕ) : ℝ) * 0.02)] ∧
    max (((1.2 : ℚ)) : ℝ) 0.2 * (0.9 + ((0 % 5 : ℕ) : ℝ) * 0.02) = 1.08 ∧
    (1.08 : ℝ) ≠ 1.2 := by
  refine ⟨rfl, ?_, by norm_num⟩
  have hmax : max (((1.2 : ℚ)) : ℝ) (0.2 : ℝ) = ((1.2 : ℚ) : ℝ) := by
    apply max_eq_left
    push_cast
    norm_num
  rw [hmax]
  push_cast
  norm_num

/-- C5 (amended): generateLayout({count 1, radius 1.2}, seed 0) returns
exactly one InstanceLayout, with angleOffset 0 and effectiveRadius 1.08. -/
theorem generateLayout_single_amended :
    (generateLayout scenarioSpec 0).length = 1 ∧
    (generateLayout scenarioSpec 0).map InstanceLayout.ang = [0] ∧
    (generateLayout scenarioSpec 0).map InstanceLayout.r = [(1.08 : ℝ)] := by
  refine ⟨rfl, ?_, ?_⟩
  · have h : (generateLayout scenarioSpec 0).map InstanceLayout.ang =
        [(((0 : ℕ) : ℝ) + ((0 : Int) : ℝ)) / ((1 : Int) : ℝ) * Real.pi * 2] := rfl
    rw [h]
    norm_num
  · have h : (generateLayout scenarioSpec 0).map InstanceLayout.r =
        [max (((1.2 : ℚ)) : ℝ) 0.2 * (0.9 + ((0 % 5 : ℕ) : ℝ) * 0.02)] := rfl
    have hmax : max (((1.2 : ℚ)) : ℝ) (0.2 : ℝ) = ((1.2 : ℚ) : ℝ) := by
      apply max_eq_left
      push_cast
      norm_num
    rw [h, hmax]
    push_cast
    norm_num

/-- C6: for orbit motion, the position after a frame at absolute time T is a
function of the layout and T alone — identical for any two frame-delta
histories and any prior states — and equals
(cos(ang + speed * T * 0.00015) * r, y, sin(ang + speed * T * 0.00015) * r). -/
theorem orbit_phase_stability (layout : InstanceLayout) (i : Nat) (T dt1 dt2 : ℝ)
    (h1 h2 : List (ℝ × ℝ)) (s1 s2 : FrameState) :
    (runSteps (some Motion.orbit) layout i (h1 ++ [(T, dt1)]) s1).pos =
      (runSteps (some Motion.orbit) layout i (h2 ++ [(T, dt2)]) s2).pos ∧
    (runSteps (some Motion.orbit) layout i (h1 ++ [(T, dt1)]) s1).pos =
      (Real.cos (layout.ang + layout.speed * T * 0.00015) * layout.r, layout.y,
        Real.sin (layout.ang + layout.speed * T * 0.00015) * layout.r) := by
  have key : ∀ (hist : List (ℝ × ℝ)) (dt : ℝ) (st : FrameState),
      (runSteps (some Motion.orbit) layout i (hist ++ [(T, dt)]) st).pos =
        (Real.cos (layout.ang + layout.speed * T * 0.00015) * layout.r, layout.y,
          Real.sin (layout.ang + layout.speed * T * 0.00015) * layout.r) := by
    intro hist dt st
    rw [runSteps_append]
    exact stepInstance_orbit_pos layout i T dt _
  exact ⟨(key h1 dt1 s1).trans (key h2 dt2 s2).symm, key h1 dt1 s1⟩

/-- C7: compilation is total and never yields an empty plan, and the empty
directive compiles to exactly the single default entry — a sphere with count
10, color "#9cf" and orbit motion. -/
theorem compile_total_nonempty :
    (∀ input : String, (planSceneFromTextMock input).objects ≠ []) ∧
    planSceneFromTextMock "" = { objects := [defaultSphereSpec] } ∧
    defaultSphereSpec.shape = Shape.sphere ∧ defaultSphereSpec.count = 10 ∧
    defaultSphereSpec.color = some "#9cf" ∧
    defaultSphereSpec.motion = some Motion.orbit := by
  refine ⟨?_, rfl, rfl, rfl, rfl, rfl⟩
  intro input
  rw [plan_objects]
  by_cases he : compiledObjects (lowerString input) = []
  · rw [if_pos he]
    simp
  · rw [if_neg he]
    exact he

/-- C7 (witness): non-emptiness evaluated at a concrete directive, together
with the empty-directive scenario. -/
theorem compile_total_nonempty_witness :
    (planSceneFromTextMock "x").objects ≠ [] ∧
    planSceneFromTextMock "" = { objects := [defaultSphereSpec] } :=
  ⟨compile_total_nonempty.1 "x", compile_total_nonempty.2.1⟩

/-- C8 (counterexample): "5 tori" matches the claimed
"<number> <plural-keyword>" pattern, yet the compiled plan contains no torus
entry at all (the regex alternative `(\d+)\s+torus` requires the singular
form, and the presence test `has("torus")` does not match "tori"). -/
theorem countExtraction_counterexample :
    ¬ ∃ o ∈ (planSceneFromTextMock "5 tori").objects,
      o.shape = Shape.torus ∧ o.count = 5 := by
  decide

/-- C8 (amended): counts are clamped into [1, 200] for every input; a
category whose singular stem does not occur is omitted (box shown); an
explicit "<number> <keyword>" count is honoured when the number directly
precedes text beginning with the singular keyword — so plural forms of
sphere/box/icosahedron work ("20 spheres", "7 icosahedra"), explicit counts
above 200 are clamped ("999 boxes"), bare stems give the implicit defaults
5/10/3/6, and "5 tori" yields no torus entry (only the fallback default
sphere). -/
theorem countExtraction_amended :
    (∀ input : String, (planSceneFromTextMock input).objects.all
        (fun o => decide (1 ≤ o.count ∧ o.count ≤ 200)) = true) ∧
    (∀ input : String, has (lowerString input) ("box".toList) = false →
      (planSceneFromTextMock input).objects.all
        (fun o => decide (o.shape ≠ Shape.box)) = true) ∧
    (planSceneFromTextMock "20 spheres").objects.map (fun o => (o.shape, o.count)) =
      [(Shape.sphere, 20)] ∧
    (planSceneFromTextMock "7 icosahedra").objects.map (fun o => (o.shape, o.count)) =
      [(Shape.icosa, 7)] ∧
    (planSceneFromTextMock "999 boxes").objects.map (fun o => (o.shape, o.count)) =
      [(Shape.box, 200)] ∧
    (planSceneFromTextMock "sphere box torus icosa").objects.map
        (fun o => (o.shape, o.count)) =
      [(Shape.sphere, 5), (Shape.box, 10), (Shape.torus, 3), (Shape.icosa, 6)] ∧
    (planSceneFromTextMock "5 tori").objects.map (fun o => (o.shape, o.count)) =
      [(Shape.sphere, 10)] := by
  refine ⟨?_, ?_, by decide, by decide, by decide, by decide, by decide⟩
  · intro input
    rw [List.all_eq_true]
    intro o ho
    have hb := (plan_entry_props ho).2
    unfold specInRangeB at hb
    simp only [Bool.and_eq_true] at hb
    simpa using hb.1.1.1.1
  · intro input hbox
    rw [List.all_eq_true]
    intro o ho
    simp only [decide_eq_true_eq]
    rcases mem_plan ho with rfl | hco
    · decide
    · rcases mem_compiledObjects hco with ⟨rfl, -⟩ | ⟨rfl, hc⟩ | ⟨rfl, -⟩ | ⟨rfl, -⟩
      · simp [sphereEntry]
      · exact absurd (boxCount_eq_zero hbox) hc
      · simp [torusEntry]
      · simp [icosaEntry]

/-- C8 (witness): the box-omission clause evaluated at the directive
"torus", which contains no "box" stem. -/
theorem countExtraction_amended_witness :
    (planSceneFromTextMock "torus").objects.all
      (fun o => decide (o.shape ≠ Shape.box)) = true :=
  countExtraction_amended.2.1 "torus" (by decide)

/-- C9: the compiler's output already satisfies every clamp range with all
numeric fields present, so the validation/clamp pass is the identity on
compiler output. -/
theorem compile_validate_identity (input : String) :
    validatePlan (planSceneFromTextMock input) = planSceneFromTextMock input ∧
    (planSceneFromTextMock input).objects.all specInRangeB = true :=
  ⟨validate_plan_id input, plan_all_inRange input⟩

/-- C10 (counterexample): the input "red" contains "red", yet its compiled
plan's sphere entry (the no-category fallback) has color "#9cf", not
"tomato". -/
theorem styleKeyword_counterexample :
    ¬ (∀ o ∈ (planSceneFromTextMock "red").objects,
        o.shape = Shape.sphere → o.color = some "tomato") := by
  decide

/-- C10 (amended): style detection is global over the lowercased input for
the keyword-derived entries: whenever the input contains "red", every sphere
entry among the category-rule entries (`compiledObjects`, before the
default-plan fallback) has color "tomato"; in particular
"spheres, red boxes" yields a tomato sphere entry even though "red" modifies
the boxes.  The fallback default entry keeps "#9cf". -/
theorem styleKeyword_amended (input : String) (o : ObjectSpec)
    (hred : has (lowerString input) ("red".toList) = true)
    (ho : o ∈ compiledObjects (lowerString input))
    (hs : o.shape = Shape.sphere) :
    o.color = some "tomato" ∧
    (planSceneFromTextMock "spheres, red boxes").objects.map
        (fun x => (x.shape, x.color)) =
      [(Shape.sphere, some "tomato"), (Shape.box, some "#ff9")] := by
  refine ⟨?_, by decide⟩
  rcases mem_compiledObjects ho with ⟨rfl, -⟩ | ⟨rfl, -⟩ | ⟨rfl, -⟩ | ⟨rfl, -⟩
  · simp only [sphereEntry]
    rw [hred]
    simp
  · simp [boxEntry] at hs
  · simp [torusEntry] at hs
  · simp [icosaEntry] at hs

/-- C10 (witness): the amended style theorem evaluated at the directive
"spheres, red boxes" and its sphere entry. -/
theorem styleKeyword_amended_witness :
    (sphereEntry (lowerString "spheres, red boxes")).color = some "tomato" ∧
    (planSceneFromTextMock "spheres, red boxes").objects.map
        (fun x => (x.shape, x.color)) =
      [(Shape.sphere, some "tomato"), (Shape.box, some "#ff9")] :=
  styleKeyword_amended "spheres, red boxes"
    (sphereEntry (lowerString "spheres, red boxes")) (by decide)
    (List.mem_cons_self _ _) (by decide)

end Toranorium
